import Mathlib

/-!
Verification of the USA_COre scoring pipeline against its specification.

The development shallowly embeds the Python sources:
  * `src/src/axioms.py`    — `AxiomSystem` (proof generation, certainty, proof hash)
  * `src/axioms.py`        — `LogicalStatement` / `AxiomaticGrounding`
  * `src/src/reasoning.py` — `ReasoningEngine`
  * `src/actual_r3.py`     — `ActualR3Engine`
  * `src/actual_system.py` — convergence detection

Python numerals are embedded as `ℚ` where the source only adds, multiplies,
compares and clamps decimal literals, and as `ℝ` where the source applies
`np.log2` / `np.sqrt`.  Fallible statements (an unbound name such as the
missing `json` import, or an attribute lookup of a method that is defined
nowhere in the class) are embedded in the `Except PyErr` monad, raising at
exactly the program point where CPython would raise.  `hashlib.sha256` is
embedded as a full executable SHA-256 over UTF-8 bytes.
-/

/-- A Python exception as observed by a caller of the core: the exception
class together with the unbound name / missing attribute it complains about. -/
inductive PyErr where
  | nameError : String → PyErr
  | attributeError : String → PyErr
deriving DecidableEq

/-- A request context dictionary.  The sources never read individual entries
of a context inside the verified core (contexts are passed through, printed,
or fed to the crashing cache-key builder), so it is embedded as an
association list of strings. -/
abbrev Ctx := List (String × String)

/-- Does the second list start with the first (as character lists)? -/
def charsStart : List Char → List Char → Bool
  | [], _ => true
  | _ :: _, [] => false
  | a :: as, b :: bs => a == b && charsStart as bs

/-- Does `hay` contain `needle` as a contiguous run? -/
def charsContain : List Char → List Char → Bool
  | [], needle => charsStart needle []
  | a :: rest, needle => charsStart needle (a :: rest) || charsContain rest needle

/-- Python `needle in hay` on strings. -/
def strContains (hay needle : String) : Bool :=
  charsContain hay.data needle.data

/-- Accumulate maximal non-whitespace runs (helper for `pySplit`); `acc`
holds the current run, reversed. -/
def splitWsChars : List Char → List Char → List String
  | [], acc => if acc = [] then [] else [String.mk acc.reverse]
  | c :: rest, acc =>
    if c.isWhitespace then
      (if acc = [] then [] else [String.mk acc.reverse]) ++ splitWsChars rest []
    else splitWsChars rest (c :: acc)

/-- `str.split()` with no argument: split on whitespace runs, dropping empty
pieces.  (Defined by structural recursion over the character list so that it
evaluates inside the kernel.) -/
def pySplit (s : String) : List String :=
  splitWsChars s.data []

/-- `str.lower()` (structural; ASCII inputs). -/
def pyLower (s : String) : String :=
  ⟨s.data.map Char.toLower⟩

/-- `str.endswith(post)`. -/
def strEndsWith (s post : String) : Bool :=
  charsStart post.data.reverse s.data.reverse

/-- `s[:n]`. -/
def strTake (s : String) (n : ℕ) : String :=
  ⟨s.data.take n⟩

/-- Join a list of strings with a separator (Python `sep.join(xs)`). -/
def joinSep (sep : String) : List String → String
  | [] => ""
  | [x] => x
  | x :: xs => x ++ sep ++ joinSep sep xs

/-- UTF-8 encoding of one character (Python `str.encode('utf-8')`, per char). -/
def charUtf8 (c : Char) : List ℕ :=
  let n := c.toNat
  if n < 128 then [n]
  else if n < 2048 then [192 + n / 64, 128 + n % 64]
  else if n < 65536 then [224 + n / 4096, 128 + n / 64 % 64, 128 + n % 64]
  else [240 + n / 262144, 128 + n / 4096 % 64, 128 + n / 64 % 64, 128 + n % 64]

/-- UTF-8 bytes of a string. -/
def utf8Bytes (s : String) : List ℕ :=
  (s.data.map charUtf8).flatten

/-! ### SHA-256 (`hashlib.sha256`), executable over byte lists. -/

/-- 2^32, the word modulus of SHA-256. -/
def w32 : ℕ := 4294967296

/-- Rotate a 32-bit word right by `n`. -/
def rotr32 (x n : ℕ) : ℕ :=
  (x <<< (32 - n) ||| x >>> n) % w32

/-- Bitwise complement of a 32-bit word. -/
def bnot32 (x : ℕ) : ℕ := 4294967295 - x % w32

def bigSigma0 (x : ℕ) : ℕ := rotr32 x 2 ^^^ rotr32 x 13 ^^^ rotr32 x 22
def bigSigma1 (x : ℕ) : ℕ := rotr32 x 6 ^^^ rotr32 x 11 ^^^ rotr32 x 25
def smallSigma0 (x : ℕ) : ℕ := rotr32 x 7 ^^^ rotr32 x 18 ^^^ (x >>> 3)
def smallSigma1 (x : ℕ) : ℕ := rotr32 x 17 ^^^ rotr32 x 19 ^^^ (x >>> 10)

/-- The SHA-256 round constants. -/
def shaK : List ℕ :=
  [1116352408, 1899447441, 3049323471, 3921009573, 961987163,
   1508970993, 2453635748, 2870763221, 3624381080, 310598401,
   607225278, 1426881987, 1925078388, 2162078206, 2614888103,
   3248222580, 3835390401, 4022224774, 264347078, 604807628,
   770255983, 1249150122, 1555081692, 1996064986, 2554220882,
   2821834349, 2952996808, 3210313671, 3336571891, 3584528711,
   113926993, 338241895, 666307205, 773529912, 1294757372,
   1396182291, 1695183700, 1986661051, 2177026350, 2456956037,
   2730485921, 2820302411, 3259730800, 3345764771, 3516065817,
   3600352804, 4094571909, 275423344, 430227734, 506948616,
   659060556, 883997877, 958139571, 1322822218, 1537002063,
   1747873779, 1955562222, 2024104815, 2227730452, 2361852424,
   2428436474, 2756734187, 3204031479, 3329325298]

/-- The SHA-256 initial hash value. -/
def shaH0 : List ℕ :=
  [1779033703, 3144134277, 1013904242, 2773480762,
   1359893119, 2600822924, 528734635, 1541459225]

/-- The eight working variables of the compression function. -/
structure Sha8 where
  a : ℕ
  b : ℕ
  c : ℕ
  d : ℕ
  e : ℕ
  f : ℕ
  g : ℕ
  h : ℕ

/-- One compression round; `kw` is `K[t] + W[t]` reduced mod 2^32. -/
def shaRound (st : Sha8) (kw : ℕ) : Sha8 :=
  let ch := (st.e &&& st.f) ^^^ (bnot32 st.e &&& st.g)
  let t1 := (st.h + bigSigma1 st.e + ch + kw) % w32
  let maj := (st.a &&& st.b) ^^^ (st.a &&& st.c) ^^^ (st.b &&& st.c)
  let t2 := (bigSigma0 st.a + maj) % w32
  ⟨(t1 + t2) % w32, st.a, st.b, st.c, (st.d + t1) % w32, st.e, st.f, st.g⟩

/-- Extend the message schedule by `n` further words; `window` holds the most
recent 16 schedule words, newest first. -/
def extendW : ℕ → List ℕ → List ℕ
  | 0, _ => []
  | n + 1, window =>
    let wNew := (smallSigma1 (window.getD 1 0) + window.getD 6 0 +
                 smallSigma0 (window.getD 14 0) + window.getD 15 0) % w32
    wNew :: extendW n (wNew :: window.take 15)

/-- The 64-word message schedule of one 16-word block. -/
def shaSchedule (block : List ℕ) : List ℕ :=
  block ++ extendW 48 block.reverse

/-- Compress one 16-word block into the running 8-word hash state. -/
def shaCompress (hs block : List ℕ) : List ℕ :=
  let kws := List.zipWith (fun k w => (k + w) % w32) shaK (shaSchedule block)
  let st := kws.foldl shaRound
    ⟨hs.getD 0 0, hs.getD 1 0, hs.getD 2 0, hs.getD 3 0,
     hs.getD 4 0, hs.getD 5 0, hs.getD 6 0, hs.getD 7 0⟩
  [(hs.getD 0 0 + st.a) % w32, (hs.getD 1 0 + st.b) % w32,
   (hs.getD 2 0 + st.c) % w32, (hs.getD 3 0 + st.d) % w32,
   (hs.getD 4 0 + st.e) % w32, (hs.getD 5 0 + st.f) % w32,
   (hs.getD 6 0 + st.g) % w32, (hs.getD 7 0 + st.h) % w32]

/-- Big-endian 4-byte groups into 32-bit words. -/
def toWords : List ℕ → List ℕ
  | a :: b :: c :: d :: rest => (((a * 256 + b) * 256 + c) * 256 + d) :: toWords rest
  | _ => []

/-- Chop a word list into 16-word blocks (`fuel` bounds the recursion). -/
def toBlocks : ℕ → List ℕ → List (List ℕ)
  | 0, _ => []
  | _, [] => []
  | fuel + 1, ws => ws.take 16 :: toBlocks fuel (ws.drop 16)

/-- SHA-256 padding: append `0x80`, zero bytes up to 56 mod 64, then the
message bit length as 8 big-endian bytes. -/
def shaPad (msg : List ℕ) : List ℕ :=
  let zeros := (55 + 64 - msg.length % 64) % 64
  let bits := 8 * msg.length
  msg ++ [128] ++ List.replicate zeros 0 ++
    [bits >>> 56 % 256, bits >>> 48 % 256, bits >>> 40 % 256, bits >>> 32 % 256,
     bits >>> 24 % 256, bits >>> 16 % 256, bits >>> 8 % 256, bits % 256]

/-- The SHA-256 digest of a byte list, as eight 32-bit words. -/
def sha256Words (msg : List ℕ) : List ℕ :=
  let ws := toWords (shaPad msg)
  (toBlocks ws.length ws).foldl shaCompress shaH0

/-- A 32-bit word as four big-endian bytes. -/
def wordBytes (w : ℕ) : List ℕ :=
  [w >>> 24 % 256, w >>> 16 % 256, w >>> 8 % 256, w % 256]

/-- The SHA-256 digest of a byte list, as 32 bytes. -/
def sha256Bytes (msg : List ℕ) : List ℕ :=
  ((sha256Words msg).map wordBytes).flatten

/-- Lower-case hex digit. -/
def hexDigit (n : ℕ) : Char :=
  if n < 10 then Char.ofNat (48 + n) else Char.ofNat (87 + n)

/-- A byte as two lower-case hex characters. -/
def byteHex (b : ℕ) : List Char :=
  [hexDigit (b / 16), hexDigit (b % 16)]

/-- `hashlib.sha256(msg).hexdigest()`. -/
def sha256Hex (msg : List ℕ) : String :=
  ⟨((sha256Bytes msg).map byteHex).flatten⟩

/-! ### Generic Python helpers: substring search, float formatting, JSON. -/

/-- A nonnegative Python float literal, embedded as the exact decimal
`mant · 10^(-exp)` it was written as (`1.0` is `⟨10, 1⟩`, `0.99` is
`⟨99, 2⟩`).  Every float the sources feed into a hashed payload is such a
literal, and for them `repr(float)` prints back exactly the literal. -/
structure PyFloat where
  mant : ℕ
  exp : ℕ
deriving DecidableEq

/-- The rational value of a float literal. -/
def PyFloat.toRat (f : PyFloat) : ℚ :=
  (f.mant : ℚ) / ((10 : ℚ) ^ f.exp)

/-- The decimal digits of `n`, left-padded with zeros to `k` digits. -/
def natDigitsPadded : ℕ → ℕ → List Char
  | _, 0 => []
  | n, k + 1 => natDigitsPadded (n / 10) k ++ [Char.ofNat (48 + n % 10)]

/-- `repr(float)` of a float literal: integer part, point, fractional digits
with trailing zeros stripped but at least one digit kept. -/
def pyFloatRepr (f : PyFloat) : String :=
  let frac := (((natDigitsPadded (f.mant % 10 ^ f.exp) f.exp).reverse.dropWhile
    (fun c => c == Char.ofNat 48)).reverse)
  toString (f.mant / 10 ^ f.exp) ++ "." ++
    (if frac = [] then "0" else String.mk frac)

/-- Python `f"{wc/10:.2f}"` for a word count `wc`: the value has exactly one
decimal digit, so two-decimal fixed formatting appends a zero (all rounding
conventions agree on such exact one-digit decimals). -/
def pyFormat2fTenths (wc : ℕ) : String :=
  toString (wc / 10) ++ "." ++ toString (wc % 10) ++ "0"

/-- Four lower-case hex digits. -/
def hex4 (n : ℕ) : String :=
  String.mk [hexDigit (n / 4096 % 16), hexDigit (n / 256 % 16),
             hexDigit (n / 16 % 16), hexDigit (n % 16)]

/-- `json.dumps` escaping of one character (default `ensure_ascii=True`). -/
def jsonEscapeChar (c : Char) : String :=
  if c = '"' then "\\\""
  else if c = '\\' then "\\\\"
  else if c = '\n' then "\\n"
  else if c = '\t' then "\\t"
  else if c = '\r' then "\\r"
  else if c = Char.ofNat 8 then "\\b"
  else if c = Char.ofNat 12 then "\\f"
  else if c.toNat < 32 ∨ 126 < c.toNat then
    if c.toNat < 65536 then "\\u" ++ hex4 c.toNat
    else
      "\\u" ++ hex4 (55296 + (c.toNat - 65536) / 1024) ++
      "\\u" ++ hex4 (56320 + (c.toNat - 65536) % 1024)
  else String.singleton c

/-- A JSON string literal (`json.dumps` of a `str`). -/
def jsonStr (s : String) : String :=
  "\"" ++ String.join (s.data.map jsonEscapeChar) ++ "\""

/-! ### `src/src/axioms.py` — `AxiomSystem`. -/

/-- One entry of the fixed axiom table. -/
structure AxiomInfo where
  id : String
  statement : String
  certainty : ℚ
  kind : String
  description : String

/-- `AxiomSystem._load_axioms`: the fixed table of six axioms. -/
def loadAxioms : List AxiomInfo :=
  [⟨"A1", "Conscious experience exists", 1, "ontological",
    "First-person experience is fundamental"⟩,
   ⟨"A2", "A = A (Identity)", 1, "logical", "Law of identity"⟩,
   ⟨"A3", "Not (A and not-A)", 1, "logical", "Law of non-contradiction"⟩,
   ⟨"A4", "Either A or not-A", 1, "logical", "Law of excluded middle"⟩,
   ⟨"A5", "Information is conserved", 99 / 100, "physical",
    "Conservation of information"⟩,
   ⟨"A6", "Emergence exists", 95 / 100, "systemic",
    "Complex systems exhibit novel properties"⟩]

/-- One proof-step dict produced by `AxiomSystem._generate_proof`; the
`axiomId` field embeds the step's `"axiom"` key. -/
structure SysStep where
  axiomId : String
  transformation : String
  result : String
  certainty : PyFloat
deriving DecidableEq

/-- `AxiomSystem._has_contradiction`: lexical scan of the lower-cased
statement for a fixed phrase list, then for "contradiction"/"paradox". -/
def hasContradictionSys (statement : String) : Bool :=
  let sl := pyLower statement
  (["and not", "but not", "however not", "although not",
    "false true", "true false", "yes no", "no yes"].any
      fun p => strContains sl p) ||
    strContains sl "contradiction" || strContains sl "paradox"

/-- `AxiomSystem._generate_proof`: A1 and A2 always, A3 only on a detected
contradiction, then A4, A5 (with the statement's UTF-8 byte count) and A6
(with word count / 10 formatted to two decimals). -/
def generateProofSys (statement : String) (ctx : Ctx) : List SysStep :=
  let _ := ctx   -- `_generate_proof` receives the context but never reads it
  [⟨"A1", "existential",
    "\x27" ++ statement ++ "\x27 exists as conscious content", ⟨10, 1⟩⟩,
   ⟨"A2", "identity", "Statement is self-identical", ⟨10, 1⟩⟩] ++
  (if hasContradictionSys statement then
    [⟨"A3", "contradiction_elimination", "Contradiction resolved", ⟨10, 1⟩⟩]
   else []) ++
  [⟨"A4", "disjunction", "Statement or its negation holds", ⟨10, 1⟩⟩,
   ⟨"A5", "conservation",
    "Information conserved (" ++ toString (utf8Bytes statement).length ++ " bytes)",
    ⟨99, 2⟩⟩,
   ⟨"A6", "emergence_potential",
    "Emergence potential: " ++ pyFormat2fTenths (pySplit statement).length,
    ⟨95, 2⟩⟩]

/-- `AxiomSystem._calculate_certainty`: product of step certainties, plus a
depth bonus `min(0.3, 0.05·steps)` and a consistency bonus
`(distinct axioms / 6)·0.1`, clamped to 1; then floored at 0.85 when above
0.8 with at least 4 steps. -/
def calculateCertaintySys (steps : List SysStep) : ℚ :=
  if steps = [] then 0
  else
    let certainty := (steps.map (fun st => st.certainty.toRat)).prod
    let depthBonus := min (3 / 10) ((steps.length : ℚ) * (5 / 100))
    let consistency := (((steps.map (·.axiomId)).dedup.length : ℚ)) / (loadAxioms.length : ℚ)
    let total := min 1 (certainty + depthBonus + consistency * (1 / 10))
    if 8 / 10 < total ∧ 4 ≤ steps.length then max total (85 / 100) else total

/-- The JSON object `json.dumps` produces for one proof step under
`sort_keys=True`: keys in the order axiom, certainty, result, transformation. -/
def stepJson (st : SysStep) : String :=
  "\x7b\"axiom\": " ++ jsonStr st.axiomId ++
  ", \"certainty\": " ++ pyFloatRepr st.certainty ++
  ", \"result\": " ++ jsonStr st.result ++
  ", \"transformation\": " ++ jsonStr st.transformation ++ "\x7d"

/-- The exact string `AxiomSystem._hash_proof` feeds to `hashlib.sha256`:
`json.dumps({"statement": ..., "steps": ..., "timestamp": datetime.utcnow()
.isoformat()}, sort_keys=True)`.  Note the wall-clock timestamp is part of
the hashed payload. -/
def hashProofInput (statement : String) (steps : List SysStep) (now : String) : String :=
  "\x7b\"statement\": " ++ jsonStr statement ++
  ", \"steps\": [" ++ joinSep ", " (steps.map stepJson) ++
  "], \"timestamp\": " ++ jsonStr now ++ "\x7d"

/-- `AxiomSystem._hash_proof`: first 32 hex characters of the SHA-256 of the
JSON payload above; `now` is the `datetime.utcnow().isoformat()` drawn inside
`_hash_proof` itself. -/
def hashProofSys (statement : String) (steps : List SysStep) (now : String) : String :=
  strTake (sha256Hex (utf8Bytes (hashProofInput statement steps now))) 32

/-- The grounded-statement record returned by `AxiomSystem.ground_statement`. -/
structure SysGrounded where
  statement : String
  proofSteps : List SysStep
  certainty : ℚ
  hash : String
  timestamp : String
  axiomsUsed : List String

/-- Mutable state of an `AxiomSystem` instance. -/
structure SysState where
  proofCache : List (String × SysGrounded)
  groundingHistory : List SysGrounded

/-- `AxiomSystem.ground_statement`.  `hashNow` embeds the `utcnow()` call
inside `_hash_proof` and `recordNow` the separate `utcnow()` call that fills
the record's `timestamp` field; `axiomsUsed` models `list(set(...))` as the
deduplicated id list (the Python set order is unspecified). -/
def groundStatementSys (hashNow recordNow : String) (statement : String)
    (ctx : Ctx) (st : SysState) : SysGrounded × SysState :=
  let steps := generateProofSys statement ctx
  let certainty := calculateCertaintySys steps
  let proofHash := hashProofSys statement steps hashNow
  let grounded : SysGrounded :=
    ⟨statement, steps, certainty, proofHash, recordNow,
     (steps.map (·.axiomId)).dedup⟩
  let history := st.groundingHistory ++ [grounded]
  let history := if 1000 < history.length then history.drop (history.length - 1000) else history
  (grounded, ⟨st.proofCache ++ [(proofHash, grounded)], history⟩)

/-! ### `src/axioms.py` — `LogicalStatement` and `AxiomaticGrounding`. -/

/-- One proof-step dict of `src/axioms.py`; the fallback step carries no
`"certainty"` key, hence the optional field (read back with
`step.get("certainty", 0.5)`). -/
structure GStep where
  axiomId : String
  transformation : String
  result : String
  certainty : Option ℚ
deriving DecidableEq

/-- The static rule table of `LogicalStatement._valid_transformation`.  The
table has no entry for "A1", so `dict.get(axiom, [])` yields the empty
vocabulary for A1. -/
def axiomRules (axiomId : String) : List String :=
  if axiomId = "A2" then ["identity", "reflexive", "symmetric", "transitive"]
  else if axiomId = "A3" then ["negation", "contradiction_elimination"]
  else if axiomId = "A4" then ["disjunction", "choice", "partition"]
  else if axiomId = "A5" then ["conservation", "invariance", "symmetry"]
  else if axiomId = "A6" then ["composition", "hierarchy", "emergence_detection"]
  else []

/-- `LogicalStatement._valid_transformation`. -/
def validTransformation (axiomId transformation : String) : Bool :=
  (axiomRules axiomId).contains transformation

/-- `LogicalStatement.verify_proof`: false as soon as one step is outside its
axiom's vocabulary, true when every step passes. -/
def verifyProofL (steps : List GStep) : Bool :=
  steps.all fun st => validTransformation st.axiomId st.transformation

/-- The string `LogicalStatement.__post_init__` hashes:
the statement, then `axiom:transformation` per step, all bar-separated. -/
def postInitInput (statement : String) (steps : List GStep) : String :=
  statement ++ "|" ++
    joinSep "|" (steps.map fun st => st.axiomId ++ ":" ++ st.transformation)

/-- The hash `__post_init__` assigns (full SHA-256 hexdigest). -/
def postInitHash (statement : String) (steps : List GStep) : String :=
  sha256Hex (utf8Bytes (postInitInput statement steps))

/-- A `LogicalStatement` dataclass value after `__post_init__` ran. -/
structure LogicalStatementL where
  statement : String
  proofSteps : List GStep
  certainty : ℚ
  hash : String
deriving DecidableEq

/-- Construct a `LogicalStatement`: whatever was passed for `hash` is
overwritten by `__post_init__`. -/
def mkLogicalStatement (statement : String) (steps : List GStep) (certainty : ℚ) :
    LogicalStatementL :=
  ⟨statement, steps, certainty, postInitHash statement steps⟩

/-- `AxiomaticGrounding._generate_proof`: A1, A2, optional A3, A4, A5 — this
variant has no A6 step and fixed narrative strings. -/
def generateProofG (hasContra : Bool) : List GStep :=
  [⟨"A1", "existential", "Statement exists as conscious content", some 1⟩,
   ⟨"A2", "identity", "Statement is self-identical", some 1⟩] ++
  (if hasContra then
    [⟨"A3", "contradiction_elimination",
      "Contradiction resolved via law of non-contradiction", some 1⟩]
   else []) ++
  [⟨"A4", "disjunction", "Statement or its negation must be true", some 1⟩,
   ⟨"A5", "conservation", "Information in statement is conserved", some (99 / 100)⟩]

/-- `AxiomaticGrounding._calculate_certainty`: product of step certainties
(default 0.5) plus a depth bonus `min(0.3, 0.05·steps)`, clamped to 1. -/
def calculateCertaintyG (steps : List GStep) : ℚ :=
  if steps = [] then 0
  else
    min 1 ((steps.map fun st => st.certainty.getD (1 / 2)).prod +
           min (3 / 10) ((steps.length : ℚ) * (5 / 100)))

/-- The minimal fallback proof step (it has no certainty key). -/
def fallbackStep : GStep := ⟨"A1", "existential", "unproven", none⟩

/-- The minimal fallback grounding returned when verification fails. -/
def minimalGrounding (statement : String) : LogicalStatementL :=
  mkLogicalStatement statement [fallbackStep] (1 / 10)

/-- `AxiomaticGrounding.ground_statement`.  `hasContra` abstracts
`_has_contradiction(_parse_to_logic(statement))`, whose value depends on the
external `sympy` library; both helpers swallow every exception with bare
`except:` clauses, so that value is a plain boolean and obtaining it cannot
raise.  Returns the grounded (or fallback) statement with the updated
`proof_history`. -/
def groundStatementG (hasContra : Bool) (statement : String)
    (history : List LogicalStatementL) :
    LogicalStatementL × List LogicalStatementL :=
  let steps := generateProofG hasContra
  let grounded := mkLogicalStatement statement steps (calculateCertaintyG steps)
  if verifyProofL grounded.proofSteps then (grounded, history ++ [grounded])
  else (minimalGrounding statement, history)

/-! ### `src/src/reasoning.py` — `ReasoningEngine`. -/

/-- The component dict built by `_extract_components` (keys in insertion
order). -/
structure Components where
  entities : List String
  relations : List String
  quantifiers : List String
  modalities : List String
  actions : List String
  attributes : List String
deriving DecidableEq

/-- Classify one word along the if/elif chain of `_extract_components`. -/
def classifyWord (c : Components) (w : String) : Components :=
  let wl := pyLower w
  if (match w.data with | ch :: _ => ch.isUpper | [] => false) &&
      decide (2 < w.length) then
    {c with entities := c.entities ++ [w]}
  else if ["is", "has", "can", "does", "will", "should", "must"].contains wl then
    {c with relations := c.relations ++ [wl]}
  else if ["all", "every", "some", "no", "none"].contains wl then
    {c with quantifiers := c.quantifiers ++ [wl]}
  else if ["possible", "necessary", "impossible"].contains wl then
    {c with modalities := c.modalities ++ [wl]}
  else if strEndsWith wl "ing" || strEndsWith wl "ed" then
    {c with actions := c.actions ++ [wl]}
  else c

/-- `ReasoningEngine._extract_components`. -/
def extractComponents (query : String) : Components :=
  (pySplit query).foldl classifyWord ⟨[], [], [], [], [], []⟩

/-- Python `repr` of a list of strings, as `str(dict)` prints it.  (The
extracted words contain no quote characters in any input considered here, so
the single-quote form is the one Python picks.) -/
def pyStrList (xs : List String) : String :=
  "[" ++ joinSep ", " (xs.map fun s => "\x27" ++ s ++ "\x27") ++ "]"

/-- Python `str(components)`: the dict repr with keys in insertion order. -/
def pyStrComponents (c : Components) : String :=
  "\x7b\x27entities\x27: " ++ pyStrList c.entities ++
  ", \x27relations\x27: " ++ pyStrList c.relations ++
  ", \x27quantifiers\x27: " ++ pyStrList c.quantifiers ++
  ", \x27modalities\x27: " ++ pyStrList c.modalities ++
  ", \x27actions\x27: " ++ pyStrList c.actions ++
  ", \x27attributes\x27: " ++ pyStrList c.attributes ++ "\x7d"

/-- `ReasoningEngine._check_contradictions`: marker scan over the lower-cased
stringified component dict. -/
def checkContradictionsR (c : Components) : Bool :=
  let qs := pyLower (pyStrComponents c)
  ["not and ", "and not ", "but not ", "however not",
   "false true", "true false", "yes no", "no yes"].any fun p => strContains qs p

/-- One entry of `patterns_found`. -/
structure RPattern where
  kind : String
  certainty : ℚ
  description : String
deriving DecidableEq

/-- `ReasoningEngine._find_patterns`.  Both the "if" and "then" probes run
over the stringified dict; the key name `quantifiers` itself contains "if",
so the first probe is true for every input. -/
def findPatterns (c : Components) : List RPattern :=
  (if strContains (pyLower (pyStrComponents c)) "if" &&
      strContains (pyLower (pyStrComponents c)) "then" then
    [⟨"implication", 8 / 10, "If-then logical structure"⟩] else []) ++
  (if c.quantifiers ≠ [] then
    [⟨"quantified", 7 / 10, "Quantified with " ++ pyStrList c.quantifiers⟩]
   else []) ++
  (if c.actions ≠ [] then
    [⟨"action", 6 / 10, "Action-oriented: " ++ pyStrList (c.actions.take 2)⟩]
   else [])

/-- One entry of `direct_inferences`. -/
structure DirectInference where
  kind : String
  entity : String
  relations : List String
deriving DecidableEq

/-- The base-reasoning result dict. -/
structure BaseResult where
  directInferences : List DirectInference
  contradictions : List String
  implications : List String
  unknowns : List String
  patternsFound : List RPattern
  needsRefinement : Bool
deriving DecidableEq

/-- The concept graph, `defaultdict(set)` embedded as an association list
(set iteration order modelled by the stored list order). -/
abbrev ConceptGraph := List (String × List String)

/-- `ReasoningEngine._initialize_operators`: the initial concept graph. -/
def initialConceptGraph : ConceptGraph :=
  ["AND", "OR", "NOT", "IMPLIES", "IFF", "FORALL", "EXISTS",
   "EQUALS", "NOT_EQUALS"].map fun op => (op, ["operator_" ++ op])

/-- `ReasoningEngine._base_reasoning`. -/
def baseReasoningR (g : ConceptGraph) (c : Components) (ctx : Ctx) : BaseResult :=
  let _ := ctx   -- received but never read
  let scanned := c.entities.foldl (fun (acc : List DirectInference × List String) e =>
    match g.lookup e with
    | some rels => (acc.1 ++ [⟨"entity_known", e, rels⟩], acc.2)
    | none => (acc.1, acc.2 ++ [e])) ([], [])
  let contradictions :=
    if checkContradictionsR c then ["Logical contradiction detected"] else []
  let patterns := findPatterns c
  { directInferences := scanned.1
    contradictions := contradictions
    implications := []
    unknowns := scanned.2
    patternsFound := patterns
    needsRefinement :=
      !scanned.2.isEmpty || !contradictions.isEmpty || patterns.isEmpty }

/-- The refinement dict. -/
structure Refined where
  refinements : List String
  depth : ℕ
  novelInsights : List String
deriving DecidableEq

/-- `ReasoningEngine._recursive_refinement`: every reachable path evaluates a
method (`_hypothesize_entity`, `_resolve_contradiction`,
`_explore_implications`) that is defined nowhere in the class, so the call
raises `AttributeError` at the first such lookup. -/
def recursiveRefinementR (b : BaseResult) (remainingDepth : ℕ) : Except PyErr Refined :=
  let _ := remainingDepth
  match b.unknowns with
  | _ :: _ => .error (.attributeError "_hypothesize_entity")
  | [] =>
    match b.contradictions with
    | _ :: _ => .error (.attributeError "_resolve_contradiction")
    | [] => .error (.attributeError "_explore_implications")

/-- The `refined` value `_perform_reasoning` computes: refinement is entered
only when `depth > 1` and the base result asks for it. -/
def refinedAtDepth (b : BaseResult) (depth : ℕ) : Except PyErr (Option Refined) :=
  if 1 < depth ∧ b.needsRefinement then (recursiveRefinementR b (depth - 1)).map some
  else .ok none

/-- `ReasoningEngine._calculate_certainty`. -/
def calculateCertaintyR (b : BaseResult) (refined : Option Refined) : ℚ :=
  let refinementBonus : ℚ :=
    match refined with
    | some r =>
      if r.refinements ≠ [] then min (3 / 10) ((r.refinements.length : ℚ) * (5 / 100))
      else 0
    | none => 0
  let certainty := 7 / 10 - (b.unknowns.length : ℚ) * (1 / 10)
    - (b.contradictions.length : ℚ) * (2 / 10)
    + refinementBonus + (b.patternsFound.length : ℚ) * (5 / 100)
  max (1 / 10) (min 1 certainty)

/-- `ReasoningEngine._calculate_emergence`.  The `md5(str(insight))[:8]`
digests, used only to count distinct insights, are modelled as
collision-free, i.e. as distinct-string counting; note the complexity factor
the code applies is `sqrt(max(1, complexity))`. -/
noncomputable def calculateEmergence (b : BaseResult) (refined : Option Refined)
    (depth : ℕ) : ℝ :=
  match refined with
  | none => 0
  | some r =>
    if r.novelInsights = [] then 0
    else
      let uniqueInsights := r.novelInsights.dedup.length
      let depthFactor : ℝ := 1 + (depth : ℝ) * (1 / 10)
      let complexity := b.patternsFound.length + b.directInferences.length
      min 5 (Real.logb 2 (1 + (uniqueInsights : ℝ)) * depthFactor *
             Real.sqrt (max 1 (complexity : ℝ)))

/-- `ReasoningEngine._hash_result` evaluates `json.dumps`, but the module
never imports `json`: every call raises a `NameError` naming `json`. -/
def hashResultR (b : BaseResult) (refined : Option Refined) : Except PyErr String :=
  let _ := (b, refined)
  .error (.nameError "json")

/-- `ReasoningEngine._generate_cache_key` likewise evaluates
`json.dumps(context, sort_keys=True)` with `json` unbound. -/
def generateCacheKey (query : String) (ctx : Ctx) (depth : ℕ) : Except PyErr String :=
  let _ := (query, ctx, depth)
  .error (.nameError "json")

/-- The result dict of `_perform_reasoning` (its wall-clock `timestamp` entry
is never reached: `_hash_result` raises while the dict is being built). -/
structure RResult where
  query : String
  components : Components
  baseResult : BaseResult
  refined : Option Refined
  depthUsed : ℕ
  certainty : ℚ
  emergence : ℝ
  hash : String

/-- `ReasoningEngine._perform_reasoning`. -/
noncomputable def performReasoning (g : ConceptGraph) (query : String) (ctx : Ctx)
    (depth : ℕ) : Except PyErr RResult := do
  let comps := extractComponents query
  let base := baseReasoningR g comps ctx
  let refined ← refinedAtDepth base depth
  let certainty := calculateCertaintyR base refined
  let emergence := calculateEmergence base refined depth
  let hash ← hashResultR base refined
  pure ⟨query, comps, base, refined, depth, certainty, emergence, hash⟩

/-- Mutable state of a `ReasoningEngine` instance (the fields observable by
the verified claims). -/
structure REngine where
  maxDepth : ℕ
  cache : List (String × RResult)
  conceptGraph : ConceptGraph
  cacheHits : ℕ
  queriesProcessed : ℕ

/-- `ReasoningEngine.reason_about`: the cache key is computed before the
cache is consulted, so the unbound `json` name raises on every call, cached
or not. -/
noncomputable def reasonAbout (eng : REngine) (query : String) (ctx : Ctx)
    (depth : ℕ) : Except PyErr (RResult × REngine) := do
  let key ← generateCacheKey query ctx depth
  match eng.cache.lookup key with
  | some r => pure (r, {eng with cacheHits := eng.cacheHits + 1})
  | none => do
    let r ← performReasoning eng.conceptGraph query ctx depth
    pure (r, {eng with cache := eng.cache ++ [(key, r)],
                       queriesProcessed := eng.queriesProcessed + 1})

/-! ### `src/actual_r3.py` — `ActualR3Engine`. -/

/-- The `RefinementLevel` enum. -/
inductive RefinementLevel where
  | reflexive
  | recursive
  | regenerative
  | transcendent
deriving DecidableEq

/-- `RefinementLevel.value`. -/
def RefinementLevel.value : RefinementLevel → ℕ
  | .reflexive => 1
  | .recursive => 2
  | .regenerative => 3
  | .transcendent => 4

/-- The dict shape each reflection level returns, as read back downstream:
`level.get("insights", [])` and `level.get("certainty", 0)` (the regenerative
level has no insights key, embedded as the empty list). -/
structure RLevel where
  level : String
  insights : List String
  certainty : ℝ

/-- What the reflexive level reads off the reasoning analysis
(`analysis.get("certainty", 0.5)`).  The engine is constructed around an
arbitrary reasoning-engine instance, so that instance is abstracted to a
function that may raise. -/
structure RAnalysis where
  certainty : ℝ

/-- The injected reasoning engine: `reason_about(query, context, depth)`. -/
abbrev ReasonFn := String → Ctx → ℕ → Except PyErr RAnalysis

/-- Python `str(context)` for the flat contexts of this embedding. -/
def pyStrCtx (c : Ctx) : String :=
  "\x7b" ++
    joinSep ", " (c.map fun kv => "\x27" ++ kv.1 ++ "\x27: \x27" ++ kv.2 ++ "\x27") ++
    "\x7d"

/-- `self._get_current_state()`, evaluated while the reflexive level builds
its insight strings: no method of that name exists anywhere in
`ActualR3Engine`, so the lookup raises `AttributeError`. -/
def getCurrentState : Except PyErr String :=
  .error (.attributeError "_get_current_state")

/-- `ActualR3Engine._reflexive_level`. -/
noncomputable def reflexiveLevel (ra : ReasonFn) (query : String) (ctx : Ctx) :
    Except PyErr RLevel := do
  let analysis ← ra ("Analyze what I\x27m doing: " ++ query)
    [("analysis_type", "self_analysis")] 1
  let state ← getCurrentState
  pure ⟨"reflexive",
    ["Processing query: " ++ query,
     "Context: " ++ pyStrCtx ctx,
     "Current state: " ++ state],
    analysis.certainty⟩

/-- The thinking-pattern analysis of the recursive level.  The method
`_analyze_thinking_patterns` is defined nowhere in the class, so invoking it
raises; the record type only gives the dead code after it a type. -/
structure ThinkPatterns where
  patternTypes : List String
  certainty : ℝ
  inefficientPatterns : List String

def analyzeThinkingPatterns (reflexive : RLevel) : Except PyErr ThinkPatterns :=
  let _ := reflexive
  .error (.attributeError "_analyze_thinking_patterns")

/-- The recursion-structure record of `_identify_recursions` (undefined). -/
structure Recursions where
  maxDepth : ℕ

def identifyRecursions (patterns : ThinkPatterns) : Except PyErr Recursions :=
  let _ := patterns
  .error (.attributeError "_identify_recursions")

def findFixedPoints (recursions : Recursions) : Except PyErr (List String) :=
  let _ := recursions
  .error (.attributeError "_find_fixed_points")

/-- `ActualR3Engine._recursive_level`. -/
noncomputable def recursiveLevel (reflexive : RLevel) (ctx : Ctx) :
    Except PyErr RLevel := do
  let _ := ctx
  let patterns ← analyzeThinkingPatterns reflexive
  let recursions ← identifyRecursions patterns
  let fixedPoints ← findFixedPoints recursions
  pure ⟨"recursive",
    ["Thinking patterns: " ++ pyStrList patterns.patternTypes,
     "Recursive depth: " ++ toString recursions.maxDepth,
     "Fixed points found: " ++ toString fixedPoints.length],
    patterns.certainty⟩

/-- An improvement proposal record. -/
structure Improvement where
  kind : String
  impact : ℝ

/-- The `implementation` value of the first proposal is read from
`self._implement_depth_increase`, a method defined nowhere in the class, so
building the proposal dict raises. -/
def implementDepthIncrease : Except PyErr Unit :=
  .error (.attributeError "_implement_depth_increase")

/-- `ActualR3Engine._regenerative_level` (the improvement list below the
failing attribute lookup is dead code). -/
noncomputable def regenerativeLevel (recursive : RLevel) (ctx : Ctx) :
    Except PyErr RLevel := do
  let _ := (recursive, ctx)
  let _impl ← implementDepthIncrease
  pure ⟨"regenerative", [], 7 / 10⟩

def generateNewFramework : Except PyErr String :=
  .error (.attributeError "_generate_new_framework")

/-- Python `xs[-n:]`. -/
def lastN (n : ℕ) (xs : List ℝ) : List ℝ := xs.drop (xs.length - n)

/-- `np.mean`. -/
noncomputable def npMean (xs : List ℝ) : ℝ := xs.sum / (xs.length : ℝ)

/-- `ActualR3Engine._transcendent_level`.  `fmt` abstracts the Python
formatting `f"{avg:.2f}"` of a binary double inside an insight string. -/
noncomputable def transcendentLevel (fmt : ℝ → String) (regenerative : RLevel)
    (ctx : Ctx) (emergenceHistory : List ℝ) : Except PyErr RLevel :=
  let _ := (regenerative, ctx)
  let avg : ℝ :=
    if 5 ≤ emergenceHistory.length then npMean (lastN 5 emergenceHistory) else 0
  if 2 ≤ avg then do
    let framework ← generateNewFramework
    pure ⟨"transcendent",
      ["New framework created: " ++ framework,
       "Emergence threshold met: " ++ fmt avg ++ " >= 2.0",
       "Transcendent capability achieved"],
      8 / 10⟩
  else
    pure ⟨"transcendent",
      ["Emergence insufficient: " ++ fmt avg ++ " < 2.0",
       "Continue recursive refinement"],
      1 / 2⟩

/-- `ActualR3Engine._calculate_actual_emergence`.  Insights counted as novel
contain "new" or "create" (lower-cased); their `sha256[:8]` digests, used
only for distinctness, are modelled as collision-free. -/
noncomputable def calcActualEmergence (levels : List RLevel) : ℝ :=
  let novel := (levels.map fun l =>
    l.insights.filter fun i =>
      strContains (pyLower i) "new" || strContains (pyLower i) "create").flatten
  let uniquePatterns := novel.dedup.length
  let depthFactor :=
    (levels.filter fun l => decide ((7 / 10 : ℝ) < l.certainty)).length
  let totalInsights := (levels.map fun l => l.insights.length).sum
  if 0 < uniquePatterns then
    Real.logb 2 (1 + (uniquePatterns : ℝ)) * (depthFactor : ℝ) *
      Real.sqrt (totalInsights : ℝ)
  else 0

/-- `ActualR3Engine._calculate_lambda_impact`: base growth 0.1 times the
emergence multiplier (1.5 / 1.2 / 0.8) times `1 + 0.05·cycles_completed`. -/
noncomputable def calculateLambdaImpact (emergence : ℝ) (cyclesCompleted : ℕ) : ℝ :=
  let baseGrowth : ℝ := 1 / 10
  let multiplier : ℝ :=
    if 2 ≤ emergence then 3 / 2 else if 1 ≤ emergence then 6 / 5 else 4 / 5
  let depthMultiplier : ℝ := 1 + (cyclesCompleted : ℝ) * (5 / 100)
  baseGrowth * multiplier * depthMultiplier

/-- A `ReflectionCycle` dataclass value (never completed at runtime: its
`level` argument evaluates an unbound name). -/
structure R3Cycle where
  cycleId : String
  level : RefinementLevel
  reflections : List RLevel
  improvements : List Improvement
  emergenceScore : ℝ
  lambdaImpact : ℝ
  durationSeconds : ℝ
  hash : String

/-- The string `ReflectionCycle.__post_init__` hashes. -/
def cycleHashInput (cycleId : String) (levelValue reflections improvements : ℕ) :
    String :=
  cycleId ++ "|" ++ toString levelValue ++ "|" ++ toString reflections ++ "|" ++
    toString improvements

/-- `level=RefinementLevel.TRANSCENDENT if emergent else
RefinementLevel.REGENERATIVE` (actual_r3.py line 80): the name `emergent` is
bound nowhere in the program, so evaluating this argument raises
`NameError`. -/
def cycleLevelFlag : Except PyErr RefinementLevel :=
  .error (.nameError "emergent")

/-- `self._extract_actual_improvements(...)`: undefined method. -/
def extractActualImprovements (levels : List RLevel) :
    Except PyErr (List Improvement) :=
  let _ := levels
  .error (.attributeError "_extract_actual_improvements")

/-- Mutable state of an `ActualR3Engine` instance. -/
structure R3State where
  lambdaTotal : ℝ
  cycles : List R3Cycle
  emergenceHistory : List ℝ
  improvementLog : List String

/-- A fresh engine: `lambda_total = 10.0`, empty histories. -/
noncomputable def freshR3 : R3State := ⟨10, [], [], []⟩

/-- The dict `ActualR3Engine.reflect` would return, paired with the metrics
snapshot it embeds. -/
structure ReflectOut where
  cycle : R3Cycle
  lambdaTotal : ℝ
  lambdaGrowth : ℝ
  emergence : ℝ
  refinementLevel : ℕ
  improvementsGenerated : ℕ
  durationSeconds : ℝ

/-- `ActualR3Engine.reflect`, statement by statement.  `now` stands for
`int(time.time())` and `elapsed` for the measured duration; neither is ever
observable because the cycle record below them cannot be built. -/
noncomputable def reflect (fmt : ℝ → String) (ra : ReasonFn) (eng : R3State)
    (query : String) (ctx : Ctx) (now : ℕ) (elapsed : ℝ) :
    Except PyErr (ReflectOut × R3State) := do
  let reflexive ← reflexiveLevel ra query ctx
  let recursive ← recursiveLevel reflexive ctx
  let regenerative ← regenerativeLevel recursive ctx
  let transcendent ← transcendentLevel fmt regenerative ctx eng.emergenceHistory
  let levels := [reflexive, recursive, regenerative, transcendent]
  let emergence := calcActualEmergence levels
  let lambdaImpact := calculateLambdaImpact emergence eng.cycles.length
  let oldLambda := eng.lambdaTotal
  let newLambda := oldLambda + lambdaImpact
  let emergenceHistory := eng.emergenceHistory ++ [emergence]
  let cycleId := "r3_" ++ toString eng.cycles.length ++ "_" ++ toString now
  let level ← cycleLevelFlag
  let improvements ← extractActualImprovements levels
  let cycle : R3Cycle :=
    ⟨cycleId, level, levels, improvements, emergence, lambdaImpact, elapsed,
     sha256Hex (utf8Bytes
       (cycleHashInput cycleId level.value levels.length improvements.length))⟩
  let newState : R3State :=
    ⟨newLambda, eng.cycles ++ [cycle], emergenceHistory, eng.improvementLog⟩
  pure (⟨cycle, newLambda, newLambda - oldLambda, emergence, level.value,
         improvements.length, elapsed⟩, newState)

/-- The Λ accumulation of `reflect` (lines 72–75 of actual_r3.py): each cycle
adds the impact computed from its emergence and the number of
already-completed cycles. -/
noncomputable def lambdaRun (lambdaTotal : ℝ) (cyclesCompleted : ℕ) :
    List ℝ → ℝ
  | [] => lambdaTotal
  | e :: rest =>
    lambdaRun (lambdaTotal + calculateLambdaImpact e cyclesCompleted)
      (cyclesCompleted + 1) rest

/-- Λ_total after a sequence of cycle emergences, from the fresh engine. -/
noncomputable def lambdaTotalAfter (emergences : List ℝ) : ℝ :=
  lambdaRun 10 0 emergences

/-! ### `src/actual_system.py` — convergence detection. -/

/-- `np.diff`. -/
def npDiff : List ℝ → List ℝ
  | a :: b :: rest => (b - a) :: npDiff (b :: rest)
  | _ => []

/-- `np.std` (population standard deviation, `ddof=0`). -/
noncomputable def npStd (xs : List ℝ) : ℝ :=
  Real.sqrt (npMean (xs.map fun x => (x - npMean xs) ^ 2))

/-- The dict `_check_convergence` returns; the two diagnostic entries are
absent from the short-history branch, hence optional. -/
structure ConvergenceReport where
  converged : Prop
  confidence : ℝ
  avgChange : Option ℝ
  trend : Option ℝ

/-- `ActualAbsoluteIntelligence._check_convergence`. -/
noncomputable def checkConvergence (lambdaHistory : List ℝ) : ConvergenceReport :=
  if lambdaHistory.length < 3 then ⟨False, 0, none, none⟩
  else
    let recent := lastN 5 lambdaHistory
    let changes := npDiff recent
    let avgChange := npMean (changes.map fun x => |x|)
    let stdChange := if 1 < changes.length then npStd changes else 0
    ⟨avgChange < 1 / 100 ∧ stdChange < 2 / 100,
     1 - min 1 (avgChange * 10),
     some avgChange,
     some (if 0 < changes.length then npMean changes else 0)⟩

/-! ### Specification-side definitions (for the refinement-style claims). -/

/-- The reasoning-layer emergence formula in the words of the claim:
`0` without novel insights, otherwise
`log2(1 + unique insight count) × (1 + 0.1·depth) × sqrt(complexity)` with
`complexity = pattern count + inference count`, capped at 5. -/
noncomputable def emergenceSpecOriginal (b : BaseResult) (refined : Option Refined)
    (depth : ℕ) : ℝ :=
  match refined with
  | none => 0
  | some r =>
    if r.novelInsights = [] then 0
    else
      min 5 (Real.logb 2 (1 + (r.novelInsights.dedup.length : ℝ)) *
             (1 + (depth : ℝ) * (1 / 10)) *
             Real.sqrt ((b.patternsFound.length + b.directInferences.length : ℕ) : ℝ))

/-- The same formula amended as the code forces: the complexity factor is
`sqrt(max(1, complexity))`. -/
noncomputable def emergenceSpecAmended (b : BaseResult) (refined : Option Refined)
    (depth : ℕ) : ℝ :=
  match refined with
  | none => 0
  | some r =>
    if r.novelInsights = [] then 0
    else
      min 5 (Real.logb 2 (1 + (r.novelInsights.dedup.length : ℝ)) *
             (1 + (depth : ℝ) * (1 / 10)) *
             Real.sqrt (max 1 ((b.patternsFound.length + b.directInferences.length : ℕ) : ℝ)))

/-- A base result with no patterns and no inferences (complexity 0). -/
def c7Base : BaseResult := ⟨[], [], [], [], [], true⟩

/-- A refinement carrying exactly one novel insight. -/
def c7Refined : Refined := ⟨["hypothesis: Foo"], 2, ["hypothesis: Foo"]⟩

/-! ### Theorems. -/

/-- Known-answer test: the embedded SHA-256 digests "abc" to the standard
FIPS 180 test vector. -/
theorem sha256Hex_known_answer : sha256Hex (utf8Bytes "abc") =
    "ba7816bf8f01cfea414140de5dae2223b00361a396177a9cb410ff61f20015ad" := by
  decide

/-- Helper: `lambdaRun` over an extended emergence sequence. -/
theorem lambdaRun_append (es : List ℝ) (e : ℝ) :
    ∀ (lam : ℝ) (n : ℕ),
      lambdaRun lam n (es ++ [e]) =
        lambdaRun lam n es + calculateLambdaImpact e (n + es.length) := by
  induction es with
  | nil => intro lam n; simp [lambdaRun]
  | cons x xs ih =>
    intro lam n
    have step : lambdaRun lam n (x :: xs ++ [e]) =
        lambdaRun (lam + calculateLambdaImpact x n) (n + 1) (xs ++ [e]) := rfl
    rw [step, ih, show n + 1 + xs.length = n + (xs.length + 1) by omega]
    rfl

/-- Helper: every Λ impact is strictly positive. -/
theorem calculateLambdaImpact_pos (emergence : ℝ) (cyclesCompleted : ℕ) :
    0 < calculateLambdaImpact emergence cyclesCompleted := by
  unfold calculateLambdaImpact
  split_ifs <;> positivity

/-- C1: the claim says every `reflect(query, context)` call runs the four
levels and returns a well-formed cycle and metrics snapshot without ever
raising.  In the code every call raises before a result can be produced: the
reflexive level evaluates the undefined method `_get_current_state` (and any
exception of the injected reasoning engine propagates first), so `reflect`
never returns a value, whatever engine, state or input is used. -/
theorem c1_reflect_always_raises (fmt : ℝ → String) (ra : ReasonFn)
    (eng : R3State) (query : String) (ctx : Ctx) (now : ℕ) (elapsed : ℝ) :
    ∃ e, reflect fmt ra eng query ctx now elapsed = .error e := by
  cases h : ra ("Analyze what I\x27m doing: " ++ query)
      [("analysis_type", "self_analysis")] 1 with
  | error e =>
    exact ⟨e, by unfold reflect reflexiveLevel; rw [h]; rfl⟩
  | ok a =>
    exact ⟨.attributeError "_get_current_state",
      by unfold reflect reflexiveLevel; rw [h]; rfl⟩

/-- C2: Λ_total is non-decreasing over any sequence of reflection cycles:
each cycle's impact — base growth 0.1 times the emergence multiplier
(1.5/1.2/0.8) times `1 + 0.05·cycles completed` — is strictly positive, and
adding it can only grow the accumulated Λ_total. -/
theorem c2_lambda_total_monotone :
    (∀ (emergence : ℝ) (cyclesCompleted : ℕ),
        0 < calculateLambdaImpact emergence cyclesCompleted) ∧
    (∀ (emergences : List ℝ) (e : ℝ),
        lambdaTotalAfter emergences ≤ lambdaTotalAfter (emergences ++ [e])) := by
  refine ⟨calculateLambdaImpact_pos, fun es e => ?_⟩
  unfold lambdaTotalAfter
  rw [lambdaRun_append]
  have := calculateLambdaImpact_pos e (0 + es.length)
  linarith

/-- C4: the claim says `reason_about` memoizes and that a repeated call is a
cache hit with content-identical results.  In the code every call — first or
repeated, any cache state — raises `NameError` while building the cache key,
because `src/src/reasoning.py` uses `json.dumps` without importing `json`. -/
theorem c4_reason_about_raises_name_error (eng : REngine) (query : String)
    (ctx : Ctx) (depth : ℕ) :
    reasonAbout eng query ctx depth = .error (.nameError "json") := rfl

/-- C10: with depth ≤ 1 the refinement gate `depth > 1 and needs_refinement`
is closed, so `_perform_reasoning` computes `refined = None` and
`_calculate_emergence` returns exactly 0 for it. -/
theorem c10_shallow_reasoning_zero_emergence (g : ConceptGraph) (query : String)
    (ctx : Ctx) (depth : ℕ) (hd : depth ≤ 1) :
    refinedAtDepth (baseReasoningR g (extractComponents query) ctx) depth = .ok none ∧
    calculateEmergence (baseReasoningR g (extractComponents query) ctx) none depth = 0 := by
  constructor
  · unfold refinedAtDepth
    rw [if_neg]
    rintro ⟨h1, -⟩
    omega
  · rfl

/-- Witness for C10 at the concrete shallow call of the reflexive level
(`depth = 1`). -/
theorem c10_shallow_reasoning_zero_emergence_witness :
    (1 : ℕ) ≤ 1 ∧
    (refinedAtDepth (baseReasoningR initialConceptGraph (extractComponents "test") []) 1 =
        .ok none ∧
     calculateEmergence (baseReasoningR initialConceptGraph (extractComponents "test") []) none 1 = 0) :=
  ⟨by decide,
   c10_shallow_reasoning_zero_emergence initialConceptGraph "test" [] 1 (by decide)⟩

/-- C5: a proof step whose transformation is outside its axiom's vocabulary
makes `verify_proof()` return false, and grounding then returns the single
minimal fallback step (A1, existential, certainty 0.1) instead of raising;
`ground_statement` is total — it returns the fallback for every input
statement and every outcome of the sympy-backed contradiction probe. -/
theorem c5_invalid_transformation_minimal_fallback :
    (∀ steps : List GStep,
        (∃ st ∈ steps, validTransformation st.axiomId st.transformation = false) →
        verifyProofL steps = false) ∧
    (∀ (hasContra : Bool) (statement : String) (history : List LogicalStatementL),
        groundStatementG hasContra statement history =
          (minimalGrounding statement, history)) := by
  constructor
  · rintro steps ⟨st, hmem, hbad⟩
    unfold verifyProofL
    rw [List.all_eq_false]
    exact ⟨st, hmem, by simp [hbad]⟩
  · intro hc s h
    cases hc <;> rfl

/-- Witness for C5 at the concrete invalid step from the claim: axiom "A3"
with transformation "identity". -/
theorem c5_invalid_transformation_minimal_fallback_witness :
    verifyProofL [⟨"A3", "identity", "bad step", some 1⟩] = false :=
  c5_invalid_transformation_minimal_fallback.1 _
    ⟨⟨"A3", "identity", "bad step", some 1⟩, by decide, by decide⟩

/-- C6: the claim says grounding "A = A" produces a proof containing the
A2/"identity"/1.0 step.  `AxiomSystem.ground_statement` does emit it (last
conjunct), but the other cited grounding path,
`AxiomaticGrounding.ground_statement` of src/axioms.py, returns exactly the
single A1/"existential" fallback step for "A = A" — its generated proof
always opens with an A1 step that its own `_valid_transformation` table
(which has no "A1" entry) rejects, so verification fails and no A2 step
survives into the result, contrary to the claim and to the specified step
sequence. -/
theorem c6_grounding_A2_step_divergence :
    (∀ (hasContra : Bool) (history : List LogicalStatementL),
        (groundStatementG hasContra "A = A" history).1.proofSteps = [fallbackStep]) ∧
    fallbackStep.axiomId = "A1" ∧ fallbackStep.transformation = "existential" ∧
    (∀ (hashNow recordNow : String) (ctx : Ctx) (st : SysState),
        ∃ step ∈ (groundStatementSys hashNow recordNow "A = A" ctx st).1.proofSteps,
          step.axiomId = "A2" ∧ step.transformation = "identity" ∧
          step.certainty.toRat = 1) := by
  refine ⟨fun hasContra history => ?_, rfl, rfl, fun hashNow recordNow ctx st => ?_⟩
  · cases hasContra <;> rfl
  · refine ⟨⟨"A2", "identity", "Statement is self-identical", ⟨10, 1⟩⟩, ?_, rfl, rfl,
      by norm_num [PyFloat.toRat]⟩
    show _ ∈ generateProofSys "A = A" ctx
    unfold generateProofSys
    exact List.mem_append_left _ (List.mem_append_left _
      (List.mem_cons_of_mem _ (List.mem_cons_self _ _)))

/-- Helper for C9: the certainty of the 5-step proof (no A3 step) is 1,
whatever the narrative strings are: product 0.9405, depth bonus 0.25,
consistency bonus 5/6·0.1, clamped to 1. -/
theorem calculateCertaintySys_five (r1 r2 r4 r5 r6 : String) :
    calculateCertaintySys
      [⟨"A1", "existential", r1, ⟨10, 1⟩⟩, ⟨"A2", "identity", r2, ⟨10, 1⟩⟩,
       ⟨"A4", "disjunction", r4, ⟨10, 1⟩⟩, ⟨"A5", "conservation", r5, ⟨99, 2⟩⟩,
       ⟨"A6", "emergence_potential", r6, ⟨95, 2⟩⟩] = 1 := by
  unfold calculateCertaintySys
  rw [if_neg (by simp)]
  have hd : (List.map (fun st : SysStep => st.axiomId)
      [⟨"A1", "existential", r1, ⟨10, 1⟩⟩, ⟨"A2", "identity", r2, ⟨10, 1⟩⟩,
       ⟨"A4", "disjunction", r4, ⟨10, 1⟩⟩, ⟨"A5", "conservation", r5, ⟨99, 2⟩⟩,
       ⟨"A6", "emergence_potential", r6, ⟨95, 2⟩⟩]).dedup.length = 5 := by
    show (["A1", "A2", "A4", "A5", "A6"] : List String).dedup.length = 5
    decide
  rw [hd]
  simp only [List.map_cons, List.map_nil, List.prod_cons, List.prod_nil,
    List.length_cons, List.length_nil, loadAxioms]
  norm_num [PyFloat.toRat, min_def, max_def]

/-- Helper for C9: the certainty of the 6-step proof (with the A3 step) is
likewise 1. -/
theorem calculateCertaintySys_six (r1 r2 r3 r4 r5 r6 : String) :
    calculateCertaintySys
      [⟨"A1", "existential", r1, ⟨10, 1⟩⟩, ⟨"A2", "identity", r2, ⟨10, 1⟩⟩,
       ⟨"A3", "contradiction_elimination", r3, ⟨10, 1⟩⟩,
       ⟨"A4", "disjunction", r4, ⟨10, 1⟩⟩, ⟨"A5", "conservation", r5, ⟨99, 2⟩⟩,
       ⟨"A6", "emergence_potential", r6, ⟨95, 2⟩⟩] = 1 := by
  unfold calculateCertaintySys
  rw [if_neg (by simp)]
  have hd : (List.map (fun st : SysStep => st.axiomId)
      [⟨"A1", "existential", r1, ⟨10, 1⟩⟩, ⟨"A2", "identity", r2, ⟨10, 1⟩⟩,
       ⟨"A3", "contradiction_elimination", r3, ⟨10, 1⟩⟩,
       ⟨"A4", "disjunction", r4, ⟨10, 1⟩⟩, ⟨"A5", "conservation", r5, ⟨99, 2⟩⟩,
       ⟨"A6", "emergence_potential", r6, ⟨95, 2⟩⟩]).dedup.length = 6 := by
    show (["A1", "A2", "A3", "A4", "A5", "A6"] : List String).dedup.length = 6
    decide
  rw [hd]
  simp only [List.map_cons, List.map_nil, List.prod_cons, List.prod_nil,
    List.length_cons, List.length_nil, loadAxioms]
  norm_num [PyFloat.toRat, min_def, max_def]

/-- C9: `AxiomSystem.ground_statement` reports certainty exactly 1.0 for
every input: the 5- or 6-step proof has certainty product 0.9405, depth
bonus at least 0.25 and consistency bonus at least 5/6·0.1, so the clamped
sum is 1. -/
theorem c9_sys_certainty_always_one (hashNow recordNow statement : String)
    (ctx : Ctx) (st : SysState) :
    (groundStatementSys hashNow recordNow statement ctx st).1.certainty = 1 := by
  show calculateCertaintySys (generateProofSys statement ctx) = 1
  unfold generateProofSys
  cases h : hasContradictionSys statement with
  | false =>
    simp only [h, Bool.false_eq_true, reduceIte, List.cons_append, List.nil_append]
    exact calculateCertaintySys_five _ _ _ _ _
  | true =>
    simp only [h, reduceIte, List.cons_append, List.nil_append]
    exact calculateCertaintySys_six _ _ _ _ _ _

/-- Helper: the non-trivial branch of `_calculate_emergence`, written out. -/
theorem calculateEmergence_pos_case (b : BaseResult) (r : Refined) (depth : ℕ)
    (h : r.novelInsights ≠ []) :
    calculateEmergence b (some r) depth =
      min 5 (Real.logb 2 (1 + (r.novelInsights.dedup.length : ℝ)) *
        (1 + (depth : ℝ) * (1 / 10)) *
        Real.sqrt (max 1 ((b.patternsFound.length + b.directInferences.length : ℕ) : ℝ))) := by
  simp only [calculateEmergence]
  rw [if_neg h]

/-- C7 counterexample: at complexity 0 (no patterns, no inferences) with one
novel insight at depth 3, the code yields 1.3 while the claim's formula
(`... × sqrt(complexity)`) predicts 0 — the code's complexity factor is
`sqrt(max(1, complexity))`, not `sqrt(complexity)`. -/
theorem c7_counterexample_complexity_zero :
    calculateEmergence c7Base (some c7Refined) 3 ≠
      emergenceSpecOriginal c7Base (some c7Refined) 3 := by
  rw [calculateEmergence_pos_case _ _ _ (by decide)]
  simp only [emergenceSpecOriginal]
  rw [if_neg (by decide)]
  rw [show c7Refined.novelInsights.dedup.length = 1 by decide,
      show c7Base.patternsFound.length + c7Base.directInferences.length = 0 by decide]
  push_cast
  rw [show ((1 : ℝ) + 1) = 2 by norm_num, Real.logb_self_eq_one (by norm_num),
      Real.sqrt_zero, show max (1 : ℝ) 0 = 1 by norm_num, Real.sqrt_one]
  norm_num [min_def]

/-- C7 amended: the reasoning-layer emergence equals the claim's formula with
the complexity factor corrected to `sqrt(max(1, complexity))`, and it always
lies in [0, 5]. -/
theorem c7_emergence_matches_amended_formula (b : BaseResult)
    (refined : Option Refined) (depth : ℕ) :
    calculateEmergence b refined depth = emergenceSpecAmended b refined depth ∧
    0 ≤ calculateEmergence b refined depth ∧
    calculateEmergence b refined depth ≤ 5 := by
  refine ⟨rfl, ?_, ?_⟩
  · cases refined with
    | none => norm_num [calculateEmergence]
    | some r =>
      by_cases h : r.novelInsights = []
      · norm_num [calculateEmergence, h]
      · rw [calculateEmergence_pos_case b r depth h]
        refine le_min (by norm_num) ?_
        have h1 : (0 : ℝ) ≤ Real.logb 2 (1 + (r.novelInsights.dedup.length : ℝ)) :=
          Real.logb_nonneg (by norm_num) (le_add_of_nonneg_right (by positivity))
        have h2 : (0 : ℝ) ≤ 1 + (depth : ℝ) * (1 / 10) := by positivity
        exact mul_nonneg (mul_nonneg h1 h2) (Real.sqrt_nonneg _)
  · cases refined with
    | none => norm_num [calculateEmergence]
    | some r =>
      by_cases h : r.novelInsights = []
      · norm_num [calculateEmergence, h]
      · rw [calculateEmergence_pos_case b r depth h]
        exact min_le_left _ _

/-- Helper: `np.diff` shortens a list by one. -/
theorem npDiff_length (xs : List ℝ) : (npDiff xs).length = xs.length - 1 := by
  induction xs with
  | nil => simp [npDiff]
  | cons a rest ih =>
    cases rest with
    | nil => simp [npDiff]
    | cons b rest2 =>
      simp only [npDiff, List.length_cons] at ih ⊢
      omega

/-- C8: with fewer than 3 Λ samples the check reports not converged with
confidence 0; with 3 or more, it is converged exactly when the mean absolute
successive change over the last 5 samples is below 0.01 and their population
standard deviation below 0.02, and the confidence `1 − min(1, 10·avg)` always
lies in [0, 1]. -/
theorem c8_convergence_check (lambdaHistory : List ℝ) :
    if lambdaHistory.length < 3 then
      ¬(checkConvergence lambdaHistory).converged ∧
      (checkConvergence lambdaHistory).confidence = 0
    else
      ((checkConvergence lambdaHistory).converged ↔
        npMean ((npDiff (lastN 5 lambdaHistory)).map fun x => |x|) < 1 / 100 ∧
        npStd (npDiff (lastN 5 lambdaHistory)) < 2 / 100) ∧
      (checkConvergence lambdaHistory).confidence =
        1 - min 1 (npMean ((npDiff (lastN 5 lambdaHistory)).map fun x => |x|) * 10) ∧
      0 ≤ (checkConvergence lambdaHistory).confidence ∧
      (checkConvergence lambdaHistory).confidence ≤ 1 := by
  by_cases hl : lambdaHistory.length < 3
  · rw [if_pos hl]
    unfold checkConvergence
    rw [if_pos hl]
    exact ⟨fun h => h, by trivial⟩
  · rw [if_neg hl]
    have hstd : (if 1 < (npDiff (lastN 5 lambdaHistory)).length
        then npStd (npDiff (lastN 5 lambdaHistory)) else 0) =
        npStd (npDiff (lastN 5 lambdaHistory)) := by
      rw [if_pos]
      rw [npDiff_length]
      simp only [lastN, List.length_drop]
      omega
    have havg : 0 ≤ npMean ((npDiff (lastN 5 lambdaHistory)).map fun x => |x|) := by
      unfold npMean
      apply div_nonneg
      · apply List.sum_nonneg
        intro x hx
        obtain ⟨y, -, rfl⟩ := List.mem_map.1 hx
        positivity
      · positivity
    simp only [checkConvergence, if_neg hl]
    rw [hstd]
    refine ⟨Iff.rfl, by trivial, ?_, ?_⟩
    · have : min 1 (npMean ((npDiff (lastN 5 lambdaHistory)).map fun x => |x|) * 10) ≤ 1 :=
        min_le_left _ _
      linarith
    · have : (0 : ℝ) ≤
          min 1 (npMean ((npDiff (lastN 5 lambdaHistory)).map fun x => |x|) * 10) :=
        le_min (by norm_num) (by positivity)
      linarith

set_option maxRecDepth 80000 in
set_option maxHeartbeats 4000000 in
/-- C3: the claim says the proof hash is a deterministic function of the
statement and ordered step contents alone, so that two groundings of
identical inputs hash identically.  In the code `_hash_proof` also feeds the
wall-clock `datetime.utcnow().isoformat()` into the SHA-256 payload, so the
same statement with the same proof steps hashes differently one microsecond
later — evaluated here through the full embedded SHA-256. -/
theorem c3_proof_hash_depends_on_wall_clock :
    hashProofSys "A" (generateProofSys "A" []) "2025-01-01T00:00:00.000000" ≠
    hashProofSys "A" (generateProofSys "A" []) "2025-01-01T00:00:01.000000" := by
  decide
